import Mathlib

/-!
Shallow embedding of the real-time quiz orchestration core of the quiz-app
repository (NestJS + Prisma + Redis), and verification of its specification.

Source files embedded:
- src/src/quiz/quiz.gateway.ts   (round state machine, scoring dispatch, turn rotation)
- src/src/quiz/quiz.service.ts   (submitResponse, calculateRoundScore, leaderboard, positions)
- src/src/questions/questions.service.ts (getQuestionsForRound)
- src/src/redis (redis service: validateAnswer, selected-answer slot, answered set)
- prisma schema (Response, Score, QuizPosition, Round, Question models)

Ids (user, quiz, round, question) are modelled as natural numbers; the TypeScript
code uses opaque string ids and only ever compares them for equality.
-/

/-- Prisma enum QuizType: the answering mode of a round. -/
inductive QuizType
  | multiple_choice
  | yes_no
  | simultaneous
  deriving DecidableEq, Repr

/-- Prisma enum QuestionType: the type of a stored question. -/
inductive QuestionType
  | multiple_choice
  | yes_no
  deriving DecidableEq, Repr

/-- The answerType string computed inside quiz.gateway.ts processAnswer
(one of the literals normal, bonus, original_return). -/
inductive AnswerType
  | normal
  | bonus
  | original_return
  deriving DecidableEq, Repr

/-- Entry of the in-memory bonusState map of QuizGateway (quiz.gateway.ts lines 51-56). -/
structure BonusStateRec where
  originalUserId : Nat
  bonusUserId : Nat
  questionId : Nat
  isActive : Bool
  deriving DecidableEq, Repr

/-- Prisma model Question, restricted to the fields the orchestration core reads. -/
structure QuestionRec where
  id : Nat
  quizId : Nat
  questionNumber : Nat
  questionType : QuestionType
  correctAnswerIndex : Nat
  isAnswered : Bool
  deriving DecidableEq, Repr

/-- Prisma model Response (unique constraint on (userId, questionId)). -/
structure ResponseRec where
  userId : Nat
  quizId : Nat
  roundId : Nat
  questionId : Nat
  selectedIndex : Nat
  isCorrect : Bool
  pointsEarned : Nat
  deriving DecidableEq, Repr

/-- Prisma model Score (unique constraint on (userId, quizId, roundId)). -/
structure ScoreRec where
  userId : Nat
  quizId : Nat
  roundId : Nat
  roundScore : Nat
  questionsAnswered : Nat
  questionsCorrect : Nat
  deriving DecidableEq, Repr

/-- Prisma model QuizPosition. -/
structure PositionRec where
  userId : Nat
  quizId : Nat
  position : Nat
  totalScore : Nat
  deriving DecidableEq, Repr

/-- Prisma model Quiz, restricted to the winner field the core writes. -/
structure QuizRec where
  id : Nat
  winnerId : Option Nat
  deriving DecidableEq, Repr

/-- Prisma model Round, restricted to the fields the orchestration core reads. -/
structure RoundRec where
  id : Nat
  quizId : Nat
  roundNumber : Nat
  quizType : QuizType
  questionsPerParticipant : Nat
  isActive : Bool
  deriving DecidableEq, Repr

/-- The persisted database state reachable from the orchestration core. -/
structure DB where
  quizzes : List QuizRec
  rounds : List RoundRec
  questions : List QuestionRec
  responses : List ResponseRec
  scores : List ScoreRec
  positions : List PositionRec
  deriving DecidableEq, Repr

/-- The points / answerType computation inlined in quiz.gateway.ts
processAnswer (lines 1054-1081).  Besides the points and the answer type it
returns the bonusState map entry after the branch ran (the original_return
branch deletes the entry before any persistence happens). -/
def scoreAnswer (quizType : QuizType) (bonusState : Option BonusStateRec)
    (userId : Nat) (isCorrect : Bool) : Nat × AnswerType × Option BonusStateRec :=
  if quizType = QuizType.simultaneous then
    ((if isCorrect then 5 else 0), AnswerType.normal, bonusState)
  else
    match bonusState with
    | some bs =>
        if bs.isActive = true ∧ bs.bonusUserId = userId then
          ((if isCorrect then 1 else 0), AnswerType.bonus, some bs)
        else if bs.isActive = false ∧ bs.originalUserId = userId then
          ((if isCorrect then 2 else 0), AnswerType.original_return, none)
        else
          ((if isCorrect then 2 else 0), AnswerType.normal, some bs)
    | none => ((if isCorrect then 2 else 0), AnswerType.normal, none)

/-- C1.  The answer-processing engine awards points exactly per the mode/kind
table: simultaneous correct answers earn 5; sequential correct answers earn 2
for Normal, 1 for Bonus, 2 for OriginalReturn; every incorrect answer earns 0. -/
theorem scoreAnswer_points_table (quizType : QuizType)
    (bonusState : Option BonusStateRec) (userId : Nat) (isCorrect : Bool) :
    (quizType = QuizType.simultaneous →
      (scoreAnswer quizType bonusState userId isCorrect).1 =
        (if isCorrect then 5 else 0)) ∧
    (quizType ≠ QuizType.simultaneous →
      ((scoreAnswer quizType bonusState userId isCorrect).2.1 = AnswerType.normal →
        (scoreAnswer quizType bonusState userId isCorrect).1 =
          (if isCorrect then 2 else 0)) ∧
      ((scoreAnswer quizType bonusState userId isCorrect).2.1 = AnswerType.bonus →
        (scoreAnswer quizType bonusState userId isCorrect).1 =
          (if isCorrect then 1 else 0)) ∧
      ((scoreAnswer quizType bonusState userId isCorrect).2.1 = AnswerType.original_return →
        (scoreAnswer quizType bonusState userId isCorrect).1 =
          (if isCorrect then 2 else 0))) ∧
    (isCorrect = false → (scoreAnswer quizType bonusState userId isCorrect).1 = 0) := by
  cases quizType <;> cases bonusState <;> cases isCorrect <;>
    simp [scoreAnswer] <;> split_ifs <;> simp_all

/-- Witness for C1: the table evaluated at concrete inputs, covering each row. -/
theorem scoreAnswer_points_table_witness :
    (scoreAnswer QuizType.simultaneous none 7 true).1 = 5 ∧
    (scoreAnswer QuizType.multiple_choice none 7 true).1 = 2 ∧
    (scoreAnswer QuizType.multiple_choice (some ⟨3, 7, 11, true⟩) 7 true).1 = 1 ∧
    (scoreAnswer QuizType.multiple_choice (some ⟨7, 3, 11, false⟩) 7 true).1 = 2 ∧
    (scoreAnswer QuizType.yes_no none 7 false).1 = 0 := by
  refine ⟨(scoreAnswer_points_table QuizType.simultaneous none 7 true).1 rfl, ?_, ?_, ?_,
    (scoreAnswer_points_table QuizType.yes_no none 7 false).2.2 rfl⟩
  · exact ((scoreAnswer_points_table QuizType.multiple_choice none 7 true).2.1
      (by decide)).1 (by decide)
  · exact ((scoreAnswer_points_table QuizType.multiple_choice
      (some ⟨3, 7, 11, true⟩) 7 true).2.1 (by decide)).2.1 (by decide)
  · exact ((scoreAnswer_points_table QuizType.multiple_choice
      (some ⟨7, 3, 11, false⟩) 7 true).2.1 (by decide)).2.2 (by decide)

/-- Upsert of prisma score.upsert keyed by (userId, quizId, roundId)
(quiz.service.ts lines 514-536): the existing record is replaced in place,
otherwise the record is appended. -/
def upsertScore : List ScoreRec → ScoreRec → List ScoreRec
  | [], s => [s]
  | t :: rest, s =>
      if t.userId = s.userId ∧ t.quizId = s.quizId ∧ t.roundId = s.roundId then
        s :: rest
      else
        t :: upsertScore rest s

/-- quiz.service.ts calculateRoundScore (lines 493-543): recompute the round
score of one user from the persisted responses and upsert the Score record. -/
def calculateRoundScore (userId quizId roundId : Nat) (db : DB) : DB :=
  let responses := db.responses.filter
    (fun r => r.userId = userId ∧ r.quizId = quizId ∧ r.roundId = roundId)
  let roundScore := (responses.map (fun r => r.pointsEarned)).sum
  let questionsAnswered := responses.length
  let questionsCorrect := (responses.filter (fun r => r.isCorrect)).length
  let score : ScoreRec :=
    ⟨userId, quizId, roundId, roundScore, questionsAnswered, questionsCorrect⟩
  { db with scores := upsertScore db.scores score }

/-- One aggregated entry of the userTotals map built by getQuizLeaderboard. -/
structure UserTotal where
  userId : Nat
  totalScore : Nat
  totalQuestionsAnswered : Nat
  totalQuestionsCorrect : Nat
  deriving DecidableEq, Repr

/-- One step of the forEach grouping loop of getQuizLeaderboard
(quiz.service.ts lines 590-615): accumulate a Score record into the totals of
its user, keeping users in first-seen order. -/
def addScoreToTotals : List UserTotal → ScoreRec → List UserTotal
  | [], s => [⟨s.userId, s.roundScore, s.questionsAnswered, s.questionsCorrect⟩]
  | t :: rest, s =>
      if t.userId = s.userId then
        ⟨t.userId, t.totalScore + s.roundScore,
          t.totalQuestionsAnswered + s.questionsAnswered,
          t.totalQuestionsCorrect + s.questionsCorrect⟩ :: rest
      else
        t :: addScoreToTotals rest s

/-- One leaderboard row produced by getQuizLeaderboard (position is 1-based). -/
structure LeaderboardEntry where
  position : Nat
  userId : Nat
  totalScore : Nat
  totalQuestionsAnswered : Nat
  totalQuestionsCorrect : Nat
  deriving DecidableEq, Repr

/-- quiz.service.ts getQuizLeaderboard (lines 574-627): group the quiz's Score
records by user, sum the round scores, sort descending by total score (the
JavaScript sort is stable, as is insertion sort under a total preorder) and
assign 1-based positions.  The per-round breakdown list attached to each
entry is not modelled. -/
def getQuizLeaderboard (quizId : Nat) (db : DB) : List LeaderboardEntry :=
  let userScores := db.scores.filter (fun s => s.quizId = quizId)
  let userTotals := userScores.foldl addScoreToTotals []
  let sorted := List.insertionSort (fun a b => b.totalScore ≤ a.totalScore) userTotals
  sorted.enum.map (fun p =>
    ⟨p.1 + 1, p.2.userId, p.2.totalScore,
      p.2.totalQuestionsAnswered, p.2.totalQuestionsCorrect⟩)

/-- quiz.service.ts updateQuizPositions (lines 629-658): recompute the
leaderboard, delete every stored QuizPosition of the quiz, recreate them from
the leaderboard when it is non-empty, and overwrite the quiz's winnerId with
the user in first place. -/
def updateQuizPositions (quizId : Nat) (db : DB) : List LeaderboardEntry × DB :=
  let leaderboard := getQuizLeaderboard quizId db
  let db1 := { db with positions := db.positions.filter (fun p => ¬ p.quizId = quizId) }
  if leaderboard.length > 0 then
    let newPositions := leaderboard.map
      (fun e => (⟨e.userId, quizId, e.position, e.totalScore⟩ : PositionRec))
    let db2 := { db1 with positions := db1.positions ++ newPositions }
    match leaderboard.head? with
    | some top =>
        (leaderboard, { db2 with quizzes := db2.quizzes.map (fun q =>
          if q.id = quizId then { q with winnerId := some top.userId } else q) })
    | none => (leaderboard, db2)
  else
    (leaderboard, db1)

/-- Error outcomes of quiz.service.ts submitResponse: NotFoundException when
the question does not exist, ConflictException when the user already answered
this question. -/
inductive SubmitError
  | questionNotFound
  | duplicateResponse
  deriving DecidableEq, Repr

/-- quiz.service.ts submitResponse (lines 660-707): look up the question,
reject a duplicate (userId, questionId) pair, otherwise create the Response,
recompute the round score and the quiz positions.  Both error paths throw
before any write, so they return the database unchanged. -/
def submitResponse (userId questionId selectedIndex roundId points : Nat)
    (isCorrect : Bool) (db : DB) : Option SubmitError × Option ResponseRec × DB :=
  match db.questions.find? (fun q => q.id = questionId) with
  | none => (some SubmitError.questionNotFound, none, db)
  | some question =>
      if db.responses.any (fun r => r.userId = userId ∧ r.questionId = questionId) then
        (some SubmitError.duplicateResponse, none, db)
      else
        let response : ResponseRec :=
          ⟨userId, question.quizId, roundId, questionId, selectedIndex, isCorrect, points⟩
        let db1 := { db with responses := db.responses ++ [response] }
        let db2 := calculateRoundScore userId question.quizId roundId db1
        let db3 := (updateQuizPositions question.quizId db2).2
        (none, some response, db3)

/-- At most one Response exists per (userId, questionId) pair. -/
def UniqueResponsePairs (db : DB) : Prop :=
  db.responses.Pairwise (fun a b => ¬ (a.userId = b.userId ∧ a.questionId = b.questionId))

theorem calculateRoundScore_responses (userId quizId roundId : Nat) (db : DB) :
    (calculateRoundScore userId quizId roundId db).responses = db.responses := rfl

theorem calculateRoundScore_positions (userId quizId roundId : Nat) (db : DB) :
    (calculateRoundScore userId quizId roundId db).positions = db.positions := rfl

theorem calculateRoundScore_quizzes (userId quizId roundId : Nat) (db : DB) :
    (calculateRoundScore userId quizId roundId db).quizzes = db.quizzes := rfl

theorem calculateRoundScore_rounds (userId quizId roundId : Nat) (db : DB) :
    (calculateRoundScore userId quizId roundId db).rounds = db.rounds := rfl

theorem updateQuizPositions_responses (quizId : Nat) (db : DB) :
    ((updateQuizPositions quizId db).2).responses = db.responses := by
  unfold updateQuizPositions
  dsimp only
  split
  · split <;> rfl
  · rfl

theorem updateQuizPositions_scores (quizId : Nat) (db : DB) :
    ((updateQuizPositions quizId db).2).scores = db.scores := by
  unfold updateQuizPositions
  dsimp only
  split
  · split <;> rfl
  · rfl

theorem updateQuizPositions_rounds (quizId : Nat) (db : DB) :
    ((updateQuizPositions quizId db).2).rounds = db.rounds := by
  unfold updateQuizPositions
  dsimp only
  split
  · split <;> rfl
  · rfl

theorem updateQuizPositions_questions (quizId : Nat) (db : DB) :
    ((updateQuizPositions quizId db).2).questions = db.questions := by
  unfold updateQuizPositions
  dsimp only
  split
  · split <;> rfl
  · rfl

/-- C2.  A second submit for an already-answered (participant, question) pair
is rejected with the duplicate-response error and leaves the whole persisted
state (Responses, round scores, leaderboard inputs) unchanged; and a
successful submit preserves the at-most-one-Response-per-pair invariant. -/
theorem submitResponse_duplicate_guard
    (userId questionId selectedIndex roundId points : Nat) (isCorrect : Bool) (db : DB) :
    ((∃ question, db.questions.find? (fun q => q.id = questionId) = some question) →
      (∃ r ∈ db.responses, r.userId = userId ∧ r.questionId = questionId) →
      submitResponse userId questionId selectedIndex roundId points isCorrect db =
        (some SubmitError.duplicateResponse, none, db)) ∧
    (UniqueResponsePairs db →
      ∀ err resp db2,
        submitResponse userId questionId selectedIndex roundId points isCorrect db =
          (err, resp, db2) →
        UniqueResponsePairs db2) := by
  constructor
  · rintro ⟨question, hq⟩ ⟨r, hr, hru, hrq⟩
    have hdup : db.responses.any
        (fun r => decide (r.userId = userId ∧ r.questionId = questionId)) = true := by
      rw [List.any_eq_true]
      exact ⟨r, hr, by simp [hru, hrq]⟩
    unfold submitResponse
    rw [hq]
    dsimp only
    rw [if_pos hdup]
  · intro hu err resp db2 heq
    unfold submitResponse at heq
    cases hq : db.questions.find? (fun q => q.id = questionId) with
    | none =>
        rw [hq] at heq
        cases heq
        exact hu
    | some question =>
        rw [hq] at heq
        dsimp only at heq
        by_cases hdup : db.responses.any
            (fun r => decide (r.userId = userId ∧ r.questionId = questionId)) = true
        · rw [if_pos hdup] at heq
          cases heq
          exact hu
        · rw [if_neg hdup] at heq
          cases heq
          have hnodup : ∀ r ∈ db.responses,
              ¬ (r.userId = userId ∧ r.questionId = questionId) := by
            intro r hr hcontra
            exact hdup (List.any_eq_true.mpr ⟨r, hr, by simp [hcontra.1, hcontra.2]⟩)
          unfold UniqueResponsePairs
          rw [updateQuizPositions_responses, calculateRoundScore_responses]
          dsimp only
          rw [List.pairwise_append]
          refine ⟨hu, List.pairwise_singleton _ _, ?_⟩
          intro a ha b hb
          simp only [List.mem_singleton] at hb
          subst hb
          intro hcontra
          exact hnodup a ha ⟨hcontra.1, hcontra.2⟩

/-- Concrete database for the C2 witness: question 10 of quiz 0 already
answered by user 1 in round 5. -/
def dbC2 : DB where
  quizzes := [⟨0, none⟩]
  rounds := [⟨5, 0, 1, QuizType.multiple_choice, 3, true⟩]
  questions := [⟨10, 0, 1, QuestionType.multiple_choice, 2, true⟩]
  responses := [⟨1, 0, 5, 10, 2, true, 2⟩]
  scores := [⟨1, 0, 5, 2, 1, 1⟩]
  positions := []

/-- Witness for C2: re-submitting user 1's answer to question 10 is rejected
with the duplicate error and the database is returned unchanged. -/
theorem submitResponse_duplicate_guard_witness :
    submitResponse 1 10 3 5 2 false dbC2 =
      (some SubmitError.duplicateResponse, none, dbC2) :=
  (submitResponse_duplicate_guard 1 10 3 5 2 false dbC2).1
    ⟨⟨10, 0, 1, QuestionType.multiple_choice, 2, true⟩, by decide⟩
    ⟨⟨1, 0, 5, 10, 2, true, 2⟩, by decide, rfl, rfl⟩

theorem addScoreToTotals_ne_nil (acc : List UserTotal) (s : ScoreRec) :
    addScoreToTotals acc s ≠ [] := by
  cases acc with
  | nil => simp [addScoreToTotals]
  | cons t rest =>
      unfold addScoreToTotals
      split <;> simp

theorem foldl_addScoreToTotals_ne_nil (l : List ScoreRec) (acc : List UserTotal)
    (h : acc ≠ []) : l.foldl addScoreToTotals acc ≠ [] := by
  induction l generalizing acc with
  | nil => simpa
  | cons s rest ih => exact ih _ (addScoreToTotals_ne_nil acc s)

theorem upsertScore_self_mem (l : List ScoreRec) (s : ScoreRec) :
    s ∈ upsertScore l s := by
  induction l with
  | nil => simp [upsertScore]
  | cons t rest ih =>
      unfold upsertScore
      split
      · exact List.mem_cons_self _ _
      · exact List.mem_cons_of_mem _ ih

/-- If the quiz has at least one Score record, getQuizLeaderboard is non-empty. -/
theorem getQuizLeaderboard_ne_nil (quizId : Nat) (db : DB)
    (h : ∃ s ∈ db.scores, s.quizId = quizId) :
    getQuizLeaderboard quizId db ≠ [] := by
  obtain ⟨s, hs, hsq⟩ := h
  have hfil : s ∈ db.scores.filter (fun t => t.quizId = quizId) :=
    List.mem_filter.mpr ⟨hs, by simp [hsq]⟩
  unfold getQuizLeaderboard
  dsimp only
  cases hfl : db.scores.filter (fun t => t.quizId = quizId) with
  | nil => rw [hfl] at hfil; cases hfil
  | cons x xs =>
      have h2 : (x :: xs).foldl addScoreToTotals [] ≠ [] := by
        rw [List.foldl_cons]
        exact foldl_addScoreToTotals_ne_nil xs _ (addScoreToTotals_ne_nil [] x)
      have h3 : List.insertionSort (fun a b => b.totalScore ≤ a.totalScore)
          ((x :: xs).foldl addScoreToTotals []) ≠ [] := by
        intro hmc
        apply h2
        have hperm := List.perm_insertionSort
          (fun a b => b.totalScore ≤ a.totalScore)
          ((x :: xs).foldl addScoreToTotals [])
        rw [hmc] at hperm
        exact List.perm_nil.mp hperm.symm
      intro hmap
      apply h3
      apply List.eq_nil_of_length_eq_zero
      have hlen := congrArg List.length hmap
      simpa using hlen

/-- Shape of updateQuizPositions when the recomputed leaderboard is non-empty:
the quiz's positions are deleted and recreated from the leaderboard and the
quiz's winnerId becomes the user in first place. -/
theorem updateQuizPositions_eq_of_leaderboard (quizId : Nat) (db : DB)
    (top : LeaderboardEntry) (rest : List LeaderboardEntry)
    (h : getQuizLeaderboard quizId db = top :: rest) :
    (updateQuizPositions quizId db).2 = { db with
      positions := db.positions.filter (fun p => ¬ p.quizId = quizId) ++
        (top :: rest).map
          (fun e => (⟨e.userId, quizId, e.position, e.totalScore⟩ : PositionRec)),
      quizzes := db.quizzes.map (fun q =>
        if q.id = quizId then { q with winnerId := some top.userId } else q) } := by
  unfold updateQuizPositions
  dsimp only
  rw [h]
  rw [if_pos (by simp)]
  rfl

/-- calculateRoundScore always leaves a Score record of the given quiz in the
database (the upserted record itself). -/
theorem calculateRoundScore_scores_mem (userId quizId roundId : Nat) (db : DB) :
    ∃ s ∈ (calculateRoundScore userId quizId roundId db).scores, s.quizId = quizId := by
  unfold calculateRoundScore
  dsimp only
  exact ⟨_, upsertScore_self_mem _ _, rfl⟩

/-- C10.  Every successful answer submission recomputes the leaderboard,
deletes and recreates all stored QuizPosition rows of the quiz, and overwrites
the quiz's persisted winnerId with the participant currently ranked first —
regardless of the state of the rounds (db.rounds is never consulted, and is
returned unchanged).  The leaderboard is non-empty after any successful
submit because calculateRoundScore upserts a Score record for the submitter. -/
theorem submitResponse_recreates_positions_and_winner
    (userId questionId selectedIndex roundId points : Nat) (isCorrect : Bool) (db : DB)
    (question : QuestionRec)
    (hq : db.questions.find? (fun q => q.id = questionId) = some question)
    (hnew : db.responses.any
      (fun r => decide (r.userId = userId ∧ r.questionId = questionId)) = false) :
    ∃ top rest db2,
      submitResponse userId questionId selectedIndex roundId points isCorrect db =
        (none, some ⟨userId, question.quizId, roundId, questionId, selectedIndex,
          isCorrect, points⟩, db2) ∧
      getQuizLeaderboard question.quizId
        (calculateRoundScore userId question.quizId roundId
          { db with responses := db.responses ++
            [⟨userId, question.quizId, roundId, questionId, selectedIndex,
              isCorrect, points⟩] }) = top :: rest ∧
      db2.positions = db.positions.filter (fun p => ¬ p.quizId = question.quizId) ++
        (top :: rest).map
          (fun e => (⟨e.userId, question.quizId, e.position, e.totalScore⟩ : PositionRec)) ∧
      db2.quizzes = db.quizzes.map (fun q =>
        if q.id = question.quizId then { q with winnerId := some top.userId } else q) ∧
      db2.rounds = db.rounds := by
  have hnotdup : ¬ db.responses.any
      (fun r => decide (r.userId = userId ∧ r.questionId = questionId)) = true := by
    rw [hnew]; exact Bool.false_ne_true
  set resp : ResponseRec :=
    ⟨userId, question.quizId, roundId, questionId, selectedIndex, isCorrect, points⟩
    with hresp
  set dbMid := calculateRoundScore userId question.quizId roundId
    { db with responses := db.responses ++ [resp] } with hmid
  have hscoremem : ∃ s ∈ dbMid.scores, s.quizId = question.quizId :=
    calculateRoundScore_scores_mem userId question.quizId roundId _
  have hlbne := getQuizLeaderboard_ne_nil question.quizId dbMid hscoremem
  obtain ⟨top, rest, hlb⟩ := List.exists_cons_of_ne_nil hlbne
  have hupd := updateQuizPositions_eq_of_leaderboard question.quizId dbMid top rest hlb
  refine ⟨top, rest, (updateQuizPositions question.quizId dbMid).2, ?_, hlb, ?_, ?_, ?_⟩
  · unfold submitResponse
    rw [hq]
    dsimp only
    rw [if_neg hnotdup]
  · rw [hupd]; rfl
  · rw [hupd]; rfl
  · rw [hupd]; rfl

/-- Concrete database for the C10 witness: quiz 0 with one still-active round,
one unanswered question, and a stale position row. -/
def dbC10 : DB where
  quizzes := [⟨0, none⟩]
  rounds := [⟨5, 0, 1, QuizType.multiple_choice, 3, true⟩]
  questions := [⟨10, 0, 1, QuestionType.multiple_choice, 2, false⟩]
  responses := []
  scores := []
  positions := [⟨9, 0, 1, 7⟩]

/-- Witness for C10: submitting an answer while round 5 is still active
recreates quiz 0's positions and overwrites its winner. -/
theorem submitResponse_recreates_positions_and_winner_witness :
    ∃ top rest db2,
      submitResponse 1 10 2 5 2 true dbC10 =
        (none, some ⟨1, 0, 5, 10, 2, true, 2⟩, db2) ∧
      getQuizLeaderboard 0
        (calculateRoundScore 1 0 5
          { dbC10 with responses := dbC10.responses ++ [⟨1, 0, 5, 10, 2, true, 2⟩] }) =
        top :: rest ∧
      db2.positions = dbC10.positions.filter (fun p => ¬ p.quizId = 0) ++
        (top :: rest).map
          (fun e => (⟨e.userId, 0, e.position, e.totalScore⟩ : PositionRec)) ∧
      db2.quizzes = dbC10.quizzes.map (fun q =>
        if q.id = 0 then { q with winnerId := some top.userId } else q) ∧
      db2.rounds = dbC10.rounds :=
  submitResponse_recreates_positions_and_winner 1 10 2 5 2 true dbC10
    ⟨10, 0, 1, QuestionType.multiple_choice, 2, false⟩ (by decide) (by decide)

/-- The selected-answer slot stored by the redis service
(storeSelectedAnswer / getSelectedAnswer keyed by quizId and questionId). -/
structure PendingSelection where
  questionId : Nat
  userId : Nat
  selectedIndex : Nat
  deriving DecidableEq, Repr

/-- The per-quiz session state of one live round: the redis-cached values
(round questions, participant order, active participant, current question
index, answered set, selected-answer slot) together with the gateway's
in-memory bonusState entry and the round's persisted quizType (fetched from
prisma inside processAnswer). -/
structure SessionState where
  quizType : QuizType
  roundId : Nat
  questionCache : List QuestionRec
  roundQuestions : List QuestionRec
  participantOrder : List Nat
  activeUserId : Option Nat
  currentQuestionIndex : Nat
  answeredQuestionIds : List Nat
  pendingSelection : Option PendingSelection
  bonusState : Option BonusStateRec
  deriving DecidableEq, Repr

/-- Session state plus the persisted database: everything a gateway command
handler can read or write for one quiz. -/
structure LiveState where
  session : SessionState
  db : DB
  deriving DecidableEq, Repr

/-- The socket events a handler emits to the quiz room or the caller. -/
inductive GatewayEvent
  | errorMsg (message : String)
  | answerResult (userId questionId : Nat) (isCorrect : Bool) (points : Nat)
      (answerType : AnswerType)
  | leaderboardUpdate
  | answerAutoConfirmed (questionId userId selectedIndex : Nat) (isCorrect : Bool)
      (points : Nat)
  | nextParticipant (activeUserId questionIndex : Nat)
  | roundCompleted (roundId : Nat)
  | bonusDispatched (originalUserId bonusUserId questionId : Nat)
  | bonusAutoAdvanceScheduled
  deriving DecidableEq, Repr

/-- Redis validateAnswer (redis service lines 122-139): find the question in
the cached quiz snapshot and compare the selected index with the stored
correct index; a cache miss throws. -/
def validateAnswer (cache : List QuestionRec) (questionId selectedIndex : Nat) :
    Option (Bool × Nat) :=
  match cache.find? (fun q => q.id = questionId) with
  | none => none
  | some question =>
      some (decide (selectedIndex = question.correctAnswerIndex),
        question.correctAnswerIndex)

/-- Redis markQuestionAsAnswered (redis service lines 102-109): push the id
onto the answered list unless already present. -/
def markQuestionAsAnswered (answered : List Nat) (questionId : Nat) : List Nat :=
  if questionId ∈ answered then answered else answered ++ [questionId]

/-- Redis getSelectedAnswer: the slot holds at most one selection per
(quizId, questionId) key; a lookup for a different question misses. -/
def getSelectedAnswer (s : SessionState) (questionId : Nat) :
    Option PendingSelection :=
  match s.pendingSelection with
  | some sel => if sel.questionId = questionId then some sel else none
  | none => none

/-- Redis clearSelectedAnswer: delete the slot of this questionId. -/
def clearSelectedAnswer (p : Option PendingSelection) (questionId : Nat) :
    Option PendingSelection :=
  match p with
  | some sel => if sel.questionId = questionId then none else some sel
  | none => none

/-- Result record returned by quiz.gateway.ts processAnswer. -/
structure AnswerOutcome where
  isCorrect : Bool
  points : Nat
  correctAnswerIndex : Nat
  answerType : AnswerType
  deriving DecidableEq, Repr

/-- Error outcomes thrown inside processAnswer (validation cache miss, or the
submitResponse exceptions propagated from the quiz service). -/
inductive ProcessError
  | validationFailed
  | submitFailed (e : SubmitError)
  deriving DecidableEq, Repr

/-- quiz.gateway.ts processAnswer (lines 1049-1125): validate the answer
against the cached snapshot, compute points and answer type from the round's
quizType and the bonusState entry (clearing the entry on an original_return),
persist the Response via quizService.submitResponse, mark the question
answered for non-bonus kinds, and emit answerResult plus a leaderboard
update.  An original_return schedules the delayed autoAdvanceAfterBonus call
(modelled as an emitted marker event, since the setTimeout callback runs
outside this handler).  A submitResponse exception aborts the remainder but
keeps the bonusState deletion that already happened, exactly as the mutable
map in the source does. -/
def processAnswer (userId questionId selectedIndex : Nat) (st : LiveState) :
    Except ProcessError AnswerOutcome × LiveState × List GatewayEvent :=
  match validateAnswer st.session.questionCache questionId selectedIndex with
  | none => (Except.error ProcessError.validationFailed, st, [])
  | some (isCorrect, correctAnswerIndex) =>
      match scoreAnswer st.session.quizType st.session.bonusState userId isCorrect with
      | (points, answerType, bonusAfter) =>
        let st1 : LiveState :=
          { st with session := { st.session with bonusState := bonusAfter } }
        match submitResponse userId questionId selectedIndex st.session.roundId
            points isCorrect st1.db with
        | (some e, _, dbE) =>
            (Except.error (ProcessError.submitFailed e), { st1 with db := dbE }, [])
        | (none, _, dbOk) =>
            let st2 : LiveState := { st1 with db := dbOk }
            let answered := markQuestionAsAnswered st2.session.answeredQuestionIds questionId
            let st3 : LiveState :=
              if answerType ≠ AnswerType.bonus then
                { st2 with session := { st2.session with answeredQuestionIds := answered } }
              else st2
            let events :=
              [GatewayEvent.answerResult userId questionId isCorrect points answerType,
               GatewayEvent.leaderboardUpdate]
            let events :=
              if answerType = AnswerType.original_return then
                events ++ [GatewayEvent.bonusAutoAdvanceScheduled]
              else events
            (Except.ok ⟨isCorrect, points, correctAnswerIndex, answerType⟩, st3, events)

/-- quiz.gateway.ts proceedToNext (lines 1336-1394): advance the turn cursor
to the next participant (wrapping), increment the question index exactly when
the cursor wraps to index 0 (JavaScript findIndex yields -1 when the active
user is missing, and (-1 + 1) % len = 0, modelled by the none branch), and
when the next question index runs past the loaded question list mark the
round inactive in the database and broadcast roundCompleted with no further
turn event. -/
def proceedToNext (st : LiveState) : LiveState × List GatewayEvent :=
  let s := st.session
  match s.activeUserId with
  | none => (st, [])
  | some activeUserId =>
      let len := s.participantOrder.length
      let nextParticipantIndex :=
        match s.participantOrder.findIdx? (fun p => p = activeUserId) with
        | some currentParticipantIndex => (currentParticipantIndex + 1) % len
        | none => 0 % len
      match s.participantOrder.get? nextParticipantIndex with
      | none => (st, [])
      | some nextParticipant =>
          let nextQuestionIndex :=
            if nextParticipantIndex = 0 then s.currentQuestionIndex + 1
            else s.currentQuestionIndex
          if s.roundQuestions.length ≤ nextQuestionIndex then
            ({ st with db := { st.db with rounds := st.db.rounds.map (fun r =>
                if r.id = s.roundId then { r with isActive := false } else r) } },
             [GatewayEvent.roundCompleted s.roundId])
          else
            let s2 : SessionState := { s with
              activeUserId := some nextParticipant
              currentQuestionIndex := nextQuestionIndex }
            ({ st with session := s2 },
             [GatewayEvent.nextParticipant nextParticipant nextQuestionIndex])

/-- quiz.gateway.ts handleConfirmAnswer (lines 995-1042), after the moderator
role check: read the selected-answer slot for the question; a missing slot
emits an error event to the caller and returns; otherwise process the answer,
clear the slot and advance the turn.  A processAnswer exception is caught and
reported as an error event, leaving the slot untouched. -/
def handleConfirmAnswer (questionId : Nat) (st : LiveState) :
    LiveState × List GatewayEvent :=
  match getSelectedAnswer st.session questionId with
  | none => (st, [GatewayEvent.errorMsg "No answer selected for this question"])
  | some selectedAnswer =>
      match processAnswer selectedAnswer.userId questionId
          selectedAnswer.selectedIndex st with
      | (Except.error _, st1, events) =>
          (st1, events ++ [GatewayEvent.errorMsg "Failed to confirm answer"])
      | (Except.ok _, st1, events) =>
          let cleared := clearSelectedAnswer st1.session.pendingSelection questionId
          let st2 : LiveState :=
            { st1 with session := { st1.session with pendingSelection := cleared } }
          let next := proceedToNext st2
          (next.1, events ++ next.2)

/-- quiz.gateway.ts handleAutoConfirmAnswer (lines 876-932), after the
moderator role check: look up the current active participant, process the
payload's answer for that participant (no check of the selected-answer slot),
broadcast answerAutoConfirmed and advance the turn.  A processAnswer
exception is caught and reported as an error event. -/
def handleAutoConfirmAnswer (questionId selectedIndex : Nat) (st : LiveState) :
    LiveState × List GatewayEvent :=
  match st.session.activeUserId with
  | none => (st, [GatewayEvent.errorMsg "No active participant found"])
  | some activeUserId =>
      match processAnswer activeUserId questionId selectedIndex st with
      | (Except.error _, st1, events) =>
          (st1, events ++ [GatewayEvent.errorMsg "Failed to auto-confirm answer"])
      | (Except.ok result, st1, events) =>
          let events1 := events ++ [GatewayEvent.answerAutoConfirmed questionId
            activeUserId selectedIndex result.isCorrect result.points]
          let next := proceedToNext st1
          (next.1, events1 ++ next.2)

/-- C3.  In sequential mode, for a confirmed or auto-confirmed answer with the
active participant present in the (non-empty) participant order, proceedToNext
moves the active participant to the next participant in order with wraparound;
the question index increments exactly when the cursor wraps back to index 0;
and when the incremented question index reaches the end of the loaded question
list the round is marked inactive in storage and a roundCompleted event is
broadcast with no further turn event. -/
theorem proceedToNext_turn_advancement (st : LiveState) (u i ni nq : Nat)
    (hactive : st.session.activeUserId = some u)
    (hidx : st.session.participantOrder.findIdx? (fun p => p = u) = some i)
    (hni : ni = (i + 1) % st.session.participantOrder.length)
    (hnq : nq = (if ni = 0 then st.session.currentQuestionIndex + 1
      else st.session.currentQuestionIndex))
    (hne : st.session.participantOrder ≠ []) :
    (st.session.roundQuestions.length ≤ nq →
      (proceedToNext st).2 = [GatewayEvent.roundCompleted st.session.roundId] ∧
      (∀ r ∈ (proceedToNext st).1.db.rounds,
        r.id = st.session.roundId → r.isActive = false) ∧
      (proceedToNext st).1.session = st.session) ∧
    (nq < st.session.roundQuestions.length →
      (proceedToNext st).1.session.activeUserId =
        st.session.participantOrder.get? ni ∧
      (proceedToNext st).1.session.currentQuestionIndex = nq ∧
      (proceedToNext st).1.db = st.db ∧
      ∃ np, st.session.participantOrder.get? ni = some np ∧
        (proceedToNext st).2 = [GatewayEvent.nextParticipant np nq]) := by
  have hlenpos : 0 < st.session.participantOrder.length := List.length_pos.mpr hne
  have hlt : ni < st.session.participantOrder.length := by
    rw [hni]; exact Nat.mod_lt _ hlenpos
  have hget : st.session.participantOrder.get? ni =
      some (st.session.participantOrder.get ⟨ni, hlt⟩) := List.get?_eq_get hlt
  have hcompute :
      proceedToNext st =
        (if st.session.roundQuestions.length ≤ nq then
          ({ st with db := { st.db with rounds := st.db.rounds.map (fun r =>
              if r.id = st.session.roundId then { r with isActive := false } else r) } },
           [GatewayEvent.roundCompleted st.session.roundId])
        else
          ({ st with session := { st.session with
              activeUserId := some (st.session.participantOrder.get ⟨ni, hlt⟩)
              currentQuestionIndex := nq } },
           [GatewayEvent.nextParticipant
              (st.session.participantOrder.get ⟨ni, hlt⟩) nq])) := by
    unfold proceedToNext
    dsimp only
    rw [hactive]
    dsimp only
    rw [hidx]
    dsimp only
    rw [← hni, hget]
    dsimp only
    rw [← hnq]
  constructor
  · intro hcomp
    rw [hcompute, if_pos hcomp]
    refine ⟨rfl, ?_, rfl⟩
    intro r hr hrid
    simp only [List.mem_map] at hr
    obtain ⟨r0, hr0, hmap⟩ := hr
    by_cases hcase : r0.id = st.session.roundId
    · rw [if_pos hcase] at hmap
      rw [← hmap]
    · rw [if_neg hcase] at hmap
      rw [← hmap] at hrid
      exact absurd hrid hcase
  · intro hcomp
    rw [hcompute, if_neg (Nat.not_le.mpr hcomp)]
    exact ⟨by rw [hget], rfl, rfl,
      st.session.participantOrder.get ⟨ni, hlt⟩, hget, rfl⟩

/-- Closed form of proceedToNext when the active participant is set and the
wrapped successor index resolves to a participant. -/
theorem proceedToNext_eq (st : LiveState) (u i ni nq np : Nat)
    (hactive : st.session.activeUserId = some u)
    (hidx : st.session.participantOrder.findIdx? (fun p => p = u) = some i)
    (hni : ni = (i + 1) % st.session.participantOrder.length)
    (hnq : nq = (if ni = 0 then st.session.currentQuestionIndex + 1
      else st.session.currentQuestionIndex))
    (hget : st.session.participantOrder.get? ni = some np) :
    proceedToNext st =
      (if st.session.roundQuestions.length ≤ nq then
        ({ st with db := { st.db with rounds := st.db.rounds.map (fun r =>
            if r.id = st.session.roundId then { r with isActive := false } else r) } },
         [GatewayEvent.roundCompleted st.session.roundId])
      else
        let s2 : SessionState := { st.session with
          activeUserId := some np
          currentQuestionIndex := nq }
        ({ st with session := s2 },
         [GatewayEvent.nextParticipant np nq])) := by
  unfold proceedToNext
  dsimp only
  rw [hactive]
  dsimp only
  rw [hidx]
  dsimp only
  rw [← hni, hget]
  dsimp only
  rw [← hnq]

/-- Closed form of submitResponse on the duplicate path. -/
theorem submitResponse_duplicate_eq (u q si rid pts : Nat) (c : Bool) (db : DB)
    (qdb : QuestionRec)
    (hq : db.questions.find? (fun qq => qq.id = q) = some qdb)
    (hdup : db.responses.any
      (fun r => decide (r.userId = u ∧ r.questionId = q)) = true) :
    submitResponse u q si rid pts c db =
      (some SubmitError.duplicateResponse, none, db) := by
  unfold submitResponse
  rw [hq]
  dsimp only
  rw [if_pos hdup]

/-- Closed form of submitResponse on the success path. -/
theorem submitResponse_success_eq (u q si rid pts : Nat) (c : Bool) (db : DB)
    (qdb : QuestionRec)
    (hq : db.questions.find? (fun qq => qq.id = q) = some qdb)
    (hnodup : db.responses.any
      (fun r => decide (r.userId = u ∧ r.questionId = q)) = false) :
    submitResponse u q si rid pts c db =
      (none, some ⟨u, qdb.quizId, rid, q, si, c, pts⟩,
        (updateQuizPositions qdb.quizId (calculateRoundScore u qdb.quizId rid
          { db with responses := db.responses ++
            [⟨u, qdb.quizId, rid, q, si, c, pts⟩] })).2) := by
  unfold submitResponse
  rw [hq]
  dsimp only
  rw [if_neg (by rw [hnodup]; exact Bool.false_ne_true)]

theorem calculateRoundScore_questions (userId quizId roundId : Nat) (db : DB) :
    (calculateRoundScore userId quizId roundId db).questions = db.questions := rfl

/-- Closed form of processAnswer when validation succeeds and the Response is
persisted. -/
theorem processAnswer_success_eq (userId questionId selectedIndex : Nat)
    (st : LiveState) (c : Bool) (ci pts : Nat) (kind : AnswerType)
    (b2 : Option BonusStateRec) (qdb : QuestionRec)
    (hv : validateAnswer st.session.questionCache questionId selectedIndex =
      some (c, ci))
    (hs : scoreAnswer st.session.quizType st.session.bonusState userId c =
      (pts, kind, b2))
    (hq : st.db.questions.find? (fun qq => qq.id = questionId) = some qdb)
    (hnodup : st.db.responses.any
      (fun r => decide (r.userId = userId ∧ r.questionId = questionId)) = false) :
    processAnswer userId questionId selectedIndex st =
      (Except.ok ⟨c, pts, ci, kind⟩,
       (let dbOk := (updateQuizPositions qdb.quizId (calculateRoundScore userId
          qdb.quizId st.session.roundId { st.db with responses :=
            st.db.responses ++ [⟨userId, qdb.quizId, st.session.roundId,
              questionId, selectedIndex, c, pts⟩] })).2
        if kind ≠ AnswerType.bonus then
          ({ session := { st.session with
               answeredQuestionIds :=
                 markQuestionAsAnswered st.session.answeredQuestionIds questionId
               bonusState := b2 }, db := dbOk } : LiveState)
        else
          ({ session := { st.session with bonusState := b2 },
             db := dbOk } : LiveState)),
       (let base := [GatewayEvent.answerResult userId questionId c pts kind,
          GatewayEvent.leaderboardUpdate]
        if kind = AnswerType.original_return then
          base ++ [GatewayEvent.bonusAutoAdvanceScheduled]
        else base)) := by
  unfold processAnswer
  rw [hv]
  dsimp only
  rw [hs]
  dsimp only
  rw [submitResponse_success_eq userId questionId selectedIndex
    st.session.roundId pts c st.db qdb hq hnodup]

/-- Closed form of processAnswer when the Response already exists: the
duplicate exception propagates, and only the bonusState mutation that ran
before the persistence call survives. -/
theorem processAnswer_duplicate_eq (userId questionId selectedIndex : Nat)
    (st : LiveState) (c : Bool) (ci pts : Nat) (kind : AnswerType)
    (b2 : Option BonusStateRec) (qdb : QuestionRec)
    (hv : validateAnswer st.session.questionCache questionId selectedIndex =
      some (c, ci))
    (hs : scoreAnswer st.session.quizType st.session.bonusState userId c =
      (pts, kind, b2))
    (hq : st.db.questions.find? (fun qq => qq.id = questionId) = some qdb)
    (hdup : st.db.responses.any
      (fun r => decide (r.userId = userId ∧ r.questionId = questionId)) = true) :
    processAnswer userId questionId selectedIndex st =
      (Except.error (ProcessError.submitFailed SubmitError.duplicateResponse),
       { st with session := { st.session with bonusState := b2 } }, []) := by
  unfold processAnswer
  rw [hv]
  dsimp only
  rw [hs]
  dsimp only
  rw [submitResponse_duplicate_eq userId questionId selectedIndex
    st.session.roundId pts c st.db qdb hq hdup]

/-- Number of persisted Responses for one question. -/
def countResponsesForQuestion (questionId : Nat) (db : DB) : Nat :=
  (db.responses.filter (fun r => r.questionId = questionId)).length

theorem any_pair_eq_false_of_count_zero (qid u : Nat) (db : DB)
    (h : countResponsesForQuestion qid db = 0) :
    db.responses.any
      (fun r => decide (r.userId = u ∧ r.questionId = qid)) = false := by
  unfold countResponsesForQuestion at h
  have hfil := List.length_eq_zero.mp h
  rw [List.any_eq_false]
  intro r hr
  have hnq := List.filter_eq_nil_iff.mp hfil r hr
  simp only [decide_eq_true_eq] at hnq ⊢
  intro hcontra
  exact hnq hcontra.2

/-- With no bonusState entry, a sequential answer is always a plain normal
answer and the simultaneous branch keeps the (absent) entry. -/
theorem scoreAnswer_no_bonus (qt : QuizType) (u : Nat) (c : Bool) :
    scoreAnswer qt none u c =
      ((if qt = QuizType.simultaneous then (if c then 5 else 0)
        else (if c then 2 else 0)), AnswerType.normal, none) := by
  unfold scoreAnswer
  split <;> rfl

theorem findIdx?_self_singleton (u : Nat) :
    [u].findIdx? (fun p => p = u) = some 0 := by
  simp [List.findIdx?_cons]

/-- With a one-participant order, proceedToNext keeps the same user active
(either by wrapping to them or by completing the round without touching the
session), and never touches responses, questions or the question cache. -/
theorem proceedToNext_facts_singleton (st2 : LiveState) (u : Nat)
    (horder : st2.session.participantOrder = [u])
    (hactive : st2.session.activeUserId = some u) :
    (proceedToNext st2).1.session.activeUserId = some u ∧
    (proceedToNext st2).1.session.questionCache = st2.session.questionCache ∧
    (proceedToNext st2).1.session.bonusState = st2.session.bonusState ∧
    (proceedToNext st2).1.db.questions = st2.db.questions ∧
    (proceedToNext st2).1.db.responses = st2.db.responses ∧
    (proceedToNext st2).1.session.quizType = st2.session.quizType := by
  have hidx : st2.session.participantOrder.findIdx? (fun p => p = u) = some 0 := by
    rw [horder]; exact findIdx?_self_singleton u
  have hni : (0 : Nat) = (0 + 1) % st2.session.participantOrder.length := by
    rw [horder]; simp
  have hnq : st2.session.currentQuestionIndex + 1 =
      (if (0 : Nat) = 0 then st2.session.currentQuestionIndex + 1
       else st2.session.currentQuestionIndex) := by simp
  have hget : st2.session.participantOrder.get? 0 = some u := by
    rw [horder]; rfl
  rw [proceedToNext_eq st2 u 0 0 (st2.session.currentQuestionIndex + 1) u
    hactive hidx hni hnq hget]
  split
  · exact ⟨hactive, rfl, rfl, rfl, rfl, rfl⟩
  · exact ⟨rfl, rfl, rfl, rfl, rfl, rfl⟩

/-- After a successful manual confirmation of a pending selection in a
one-participant session with no bonus in flight: the same user is still the
active participant, exactly one new Response for the question was appended,
and the caches are untouched. -/
theorem handleConfirmAnswer_success_facts (st : LiveState)
    (qid u selIdx : Nat) (q qdb : QuestionRec)
    (hpend : st.session.pendingSelection = some ⟨qid, u, selIdx⟩)
    (horder : st.session.participantOrder = [u])
    (hactive : st.session.activeUserId = some u)
    (hbonus : st.session.bonusState = none)
    (hcache : st.session.questionCache.find? (fun qq => qq.id = qid) = some q)
    (hdbq : st.db.questions.find? (fun qq => qq.id = qid) = some qdb)
    (hcount : countResponsesForQuestion qid st.db = 0) :
    (handleConfirmAnswer qid st).1.session.activeUserId = some u ∧
    (handleConfirmAnswer qid st).1.session.questionCache =
      st.session.questionCache ∧
    (handleConfirmAnswer qid st).1.session.bonusState = none ∧
    (handleConfirmAnswer qid st).1.db.questions = st.db.questions ∧
    ∃ pts, (handleConfirmAnswer qid st).1.db.responses =
      st.db.responses ++ [⟨u, qdb.quizId, st.session.roundId, qid, selIdx,
        decide (selIdx = q.correctAnswerIndex), pts⟩] := by
  have hv1 : validateAnswer st.session.questionCache qid selIdx =
      some (decide (selIdx = q.correctAnswerIndex), q.correctAnswerIndex) := by
    unfold validateAnswer; rw [hcache]
  have hs1 : scoreAnswer st.session.quizType st.session.bonusState u
      (decide (selIdx = q.correctAnswerIndex)) =
      ((if st.session.quizType = QuizType.simultaneous
        then (if decide (selIdx = q.correctAnswerIndex) then 5 else 0)
        else (if decide (selIdx = q.correctAnswerIndex) then 2 else 0)),
       AnswerType.normal, none) := by
    rw [hbonus]; exact scoreAnswer_no_bonus _ _ _
  have hnodup := any_pair_eq_false_of_count_zero qid u st.db hcount
  have hP := processAnswer_success_eq u qid selIdx st
    (decide (selIdx = q.correctAnswerIndex)) q.correctAnswerIndex _
    AnswerType.normal none qdb hv1 hs1 hdbq hnodup
  have hsel : getSelectedAnswer st.session qid = some ⟨qid, u, selIdx⟩ := by
    unfold getSelectedAnswer; rw [hpend]; simp
  unfold handleConfirmAnswer
  rw [hsel]
  dsimp only
  rw [hP]
  simp only [ne_eq]
  rw [if_pos (by decide : ¬AnswerType.normal = AnswerType.bonus)]
  refine ⟨?_, ?_, ?_, ?_, ?_⟩
  · exact (proceedToNext_facts_singleton _ u (by exact horder) (by exact hactive)).1
  · exact (proceedToNext_facts_singleton _ u (by exact horder) (by exact hactive)).2.1
  · exact (proceedToNext_facts_singleton _ u (by exact horder) (by exact hactive)).2.2.1
  · rw [(proceedToNext_facts_singleton _ u (by exact horder)
      (by exact hactive)).2.2.2.1]
    rw [updateQuizPositions_questions, calculateRoundScore_questions]
  · refine ⟨(if st.session.quizType = QuizType.simultaneous
      then (if decide (selIdx = q.correctAnswerIndex) then 5 else 0)
      else (if decide (selIdx = q.correctAnswerIndex) then 2 else 0)), ?_⟩
    rw [(proceedToNext_facts_singleton _ u (by exact horder)
      (by exact hactive)).2.2.2.2.1]
    rw [updateQuizPositions_responses, calculateRoundScore_responses]

/-- When the active participant has already answered the question, the
auto-confirm handler's processAnswer call hits the duplicate guard and the
database is left unchanged. -/
theorem handleAutoConfirmAnswer_duplicate_db (stB : LiveState)
    (qid u j : Nat) (q qdb : QuestionRec)
    (hactiveB : stB.session.activeUserId = some u)
    (hcacheB : stB.session.questionCache.find? (fun qq => qq.id = qid) = some q)
    (hbonusB : stB.session.bonusState = none)
    (hqB : stB.db.questions.find? (fun qq => qq.id = qid) = some qdb)
    (hdupB : stB.db.responses.any
      (fun r => decide (r.userId = u ∧ r.questionId = qid)) = true) :
    (handleAutoConfirmAnswer qid j stB).1.db = stB.db := by
  have hv : validateAnswer stB.session.questionCache qid j =
      some (decide (j = q.correctAnswerIndex), q.correctAnswerIndex) := by
    unfold validateAnswer; rw [hcacheB]
  have hs : scoreAnswer stB.session.quizType stB.session.bonusState u
      (decide (j = q.correctAnswerIndex)) =
      ((if stB.session.quizType = QuizType.simultaneous
        then (if decide (j = q.correctAnswerIndex) then 5 else 0)
        else (if decide (j = q.correctAnswerIndex) then 2 else 0)),
       AnswerType.normal, none) := by
    rw [hbonusB]; exact scoreAnswer_no_bonus _ _ _
  have hPD := processAnswer_duplicate_eq u qid j stB
    (decide (j = q.correctAnswerIndex)) q.correctAnswerIndex _
    AnswerType.normal none qdb hv hs hqB hdupB
  unfold handleAutoConfirmAnswer
  rw [hactiveB]
  dsimp only
  rw [hPD]

/-- Concrete state for the C3 witness: participants [1, 2], user 1 active on
question index 0 of a one-question round. -/
def stC3 : LiveState where
  session := ⟨QuizType.multiple_choice, 5, [], [⟨10, 0, 1,
    QuestionType.multiple_choice, 2, false⟩], [1, 2], some 1, 0, [], none, none⟩
  db := ⟨[⟨0, none⟩], [⟨5, 0, 1, QuizType.multiple_choice, 3, true⟩], [], [], [], []⟩

/-- Witness for C3: advancing from user 1 of order [1, 2] hands the turn to
user 2 without advancing the question index, leaving the database untouched. -/
theorem proceedToNext_turn_advancement_witness :
    (proceedToNext stC3).1.session.activeUserId =
      stC3.session.participantOrder.get? 1 ∧
    (proceedToNext stC3).1.session.currentQuestionIndex = 0 ∧
    (proceedToNext stC3).1.db = stC3.db ∧
    ∃ np, stC3.session.participantOrder.get? 1 = some np ∧
      (proceedToNext stC3).2 = [GatewayEvent.nextParticipant np 0] :=
  (proceedToNext_turn_advancement stC3 1 0 1 0 rfl (by decide) (by decide)
    (by decide) (by decide)).2 (by decide)

/-- Concrete state for C4: participants [1, 2], user 1 active, question 10
pending with user 1's selection, two questions loaded and cached. -/
def stC4 : LiveState where
  session := ⟨QuizType.multiple_choice, 5,
    [⟨10, 0, 1, QuestionType.multiple_choice, 2, false⟩,
     ⟨11, 0, 2, QuestionType.multiple_choice, 0, false⟩],
    [⟨10, 0, 1, QuestionType.multiple_choice, 2, false⟩,
     ⟨11, 0, 2, QuestionType.multiple_choice, 0, false⟩],
    [1, 2], some 1, 0, [], some ⟨10, 1, 2⟩, none⟩
  db := ⟨[⟨0, none⟩], [⟨5, 0, 1, QuizType.multiple_choice, 3, true⟩],
    [⟨10, 0, 1, QuestionType.multiple_choice, 2, false⟩,
     ⟨11, 0, 2, QuestionType.multiple_choice, 0, false⟩], [], [], []⟩

/-- C4 counterexample: with two participants, after the moderator manually
confirms user 1's selection on question 10 (which advances the turn to user
2), a late auto-confirm for the same question scores a second Response for
question 10, attributed to user 2 — the claimed "exactly one scored Response
for that question" is false.  The duplicate guard is per (participant,
question), and the auto-confirm handler resolves the answer to the NEW active
participant without checking the cleared selection slot. -/
theorem confirm_then_autoConfirm_double_scores :
    countResponsesForQuestion 10
      ((handleAutoConfirmAnswer 10 2 (handleConfirmAnswer 10 stC4).1).1.db) = 2 ∧
    ¬ countResponsesForQuestion 10
      ((handleAutoConfirmAnswer 10 2 (handleConfirmAnswer 10 stC4).1).1.db) = 1 := by
  decide

/-- C4 (amended).  When the late auto-confirm resolves to the same participant
who was manually confirmed — in particular in a one-participant session with
no bonus in flight — the second confirmation hits the per-(participant,
question) duplicate guard and scores nothing: exactly one Response for the
question is persisted in total. -/
theorem confirm_then_autoConfirm_exactly_one (st : LiveState)
    (qid u selIdx j : Nat) (q qdb : QuestionRec)
    (hpend : st.session.pendingSelection = some ⟨qid, u, selIdx⟩)
    (horder : st.session.participantOrder = [u])
    (hactive : st.session.activeUserId = some u)
    (hbonus : st.session.bonusState = none)
    (hcache : st.session.questionCache.find? (fun qq => qq.id = qid) = some q)
    (hdbq : st.db.questions.find? (fun qq => qq.id = qid) = some qdb)
    (hcount : countResponsesForQuestion qid st.db = 0) :
    countResponsesForQuestion qid
      ((handleAutoConfirmAnswer qid j (handleConfirmAnswer qid st).1).1.db) = 1 := by
  obtain ⟨hA1, hA2, hA3, hA4, pts, hA5⟩ := handleConfirmAnswer_success_facts
    st qid u selIdx q qdb hpend horder hactive hbonus hcache hdbq hcount
  have hcacheB : (handleConfirmAnswer qid st).1.session.questionCache.find?
      (fun qq => qq.id = qid) = some q := by
    rw [hA2]; exact hcache
  have hqB : (handleConfirmAnswer qid st).1.db.questions.find?
      (fun qq => qq.id = qid) = some qdb := by
    rw [hA4]; exact hdbq
  have hdupB : (handleConfirmAnswer qid st).1.db.responses.any
      (fun r => decide (r.userId = u ∧ r.questionId = qid)) = true := by
    rw [hA5, List.any_eq_true]
    refine ⟨_, List.mem_append_right _ (List.mem_singleton_self _), by simp⟩
  have hfinal := handleAutoConfirmAnswer_duplicate_db
    (handleConfirmAnswer qid st).1 qid u j q qdb hA1 hcacheB hA3 hqB hdupB
  rw [hfinal]
  unfold countResponsesForQuestion
  rw [hA5, List.filter_append]
  unfold countResponsesForQuestion at hcount
  simp [hcount]

/-- Concrete state for the C4 amended witness: a single participant, user 1
active with a pending selection on question 10. -/
def stC4single : LiveState where
  session := ⟨QuizType.multiple_choice, 5,
    [⟨10, 0, 1, QuestionType.multiple_choice, 2, false⟩],
    [⟨10, 0, 1, QuestionType.multiple_choice, 2, false⟩],
    [1], some 1, 0, [], some ⟨10, 1, 2⟩, none⟩
  db := ⟨[⟨0, none⟩], [⟨5, 0, 1, QuizType.multiple_choice, 3, true⟩],
    [⟨10, 0, 1, QuestionType.multiple_choice, 2, false⟩], [], [], []⟩

/-- Witness for the amended C4: in a one-participant session, confirm followed
by auto-confirm leaves exactly one Response for question 10. -/
theorem confirm_then_autoConfirm_exactly_one_witness :
    countResponsesForQuestion 10
      ((handleAutoConfirmAnswer 10 2 (handleConfirmAnswer 10 stC4single).1).1.db) = 1 :=
  confirm_then_autoConfirm_exactly_one stC4single 10 1 2 2
    ⟨10, 0, 1, QuestionType.multiple_choice, 2, false⟩
    ⟨10, 0, 1, QuestionType.multiple_choice, 2, false⟩
    rfl rfl rfl rfl (by decide) (by decide) (by decide)

/-- Recognizer for the error event emitted to the invoking client. -/
def isErrorEvent : GatewayEvent → Bool
  | GatewayEvent.errorMsg _ => true
  | _ => false

/-- Concrete state for C8: no pending selection for question 10. -/
def stC8 : LiveState where
  session := ⟨QuizType.multiple_choice, 5,
    [⟨10, 0, 1, QuestionType.multiple_choice, 2, false⟩],
    [⟨10, 0, 1, QuestionType.multiple_choice, 2, false⟩],
    [1, 2], some 1, 0, [], none, none⟩
  db := ⟨[⟨0, none⟩], [⟨5, 0, 1, QuizType.multiple_choice, 3, true⟩],
    [⟨10, 0, 1, QuestionType.multiple_choice, 2, false⟩], [], [], []⟩

/-- C8 counterexample: confirming question 10 when its pending selection has
already been cleared leaves the state unchanged, but it is NOT silent — the
handler emits a 'No answer selected for this question' error event to the
client, refuting the claim that no error is surfaced. -/
theorem confirmAnswer_after_clear_emits_error :
    (handleConfirmAnswer 10 stC8).2 =
      [GatewayEvent.errorMsg "No answer selected for this question"] ∧
    (handleConfirmAnswer 10 stC8).2.any isErrorEvent = true ∧
    (handleConfirmAnswer 10 stC8).1 = stC8 := by decide

/-- C8 (amended).  If confirmAnswer is invoked for a question whose pending
selection has already been cleared, session state is left unchanged, but an
error event ('No answer selected for this question') is emitted to the
invoking client rather than the operation being silent. -/
theorem confirmAnswer_after_clear_noop_with_error (st : LiveState)
    (questionId : Nat)
    (h : getSelectedAnswer st.session questionId = none) :
    handleConfirmAnswer questionId st =
      (st, [GatewayEvent.errorMsg "No answer selected for this question"]) := by
  unfold handleConfirmAnswer
  rw [h]

/-- Witness for the amended C8 at the concrete cleared state. -/
theorem confirmAnswer_after_clear_noop_with_error_witness :
    handleConfirmAnswer 10 stC8 =
      (stC8, [GatewayEvent.errorMsg "No answer selected for this question"]) :=
  confirmAnswer_after_clear_noop_with_error stC8 10 rfl

/-- Modelled from the spec: the moderator command that CREATES the bonus
state is missing from src/ — the gateway declares the bonusState map
(quiz.gateway.ts lines 51-56) and processAnswer consumes and clears its
entries, but no handler in the repository ever inserts one.  Spec section 4.5:
triggered explicitly by a moderator action after an incorrect Normal answer;
BonusPending is created with originalParticipantId = current active,
bonusParticipantId = next participant in order (wrapping), questionId = the
unanswered question; the bonus participant becomes the temporary active
participant for that single question, without advancing the global cursor.
BonusPending is the isActive = true phase of the bonusState entry that
processAnswer consumes. -/
def dispatchBonus (questionId : Nat) (st : LiveState) :
    Option (LiveState × List GatewayEvent) :=
  match st.session.activeUserId with
  | none => none
  | some originalUserId =>
      match st.session.participantOrder.findIdx?
          (fun p => p = originalUserId) with
      | none => none
      | some i =>
          match st.session.participantOrder.get?
              ((i + 1) % st.session.participantOrder.length) with
          | none => none
          | some bonusUserId =>
              let bs : BonusStateRec :=
                ⟨originalUserId, bonusUserId, questionId, true⟩
              let s2 : SessionState := { st.session with
                bonusState := some bs
                activeUserId := some bonusUserId }
              some ({ st with session := s2 },
                [GatewayEvent.bonusDispatched originalUserId bonusUserId questionId])

/-- C5.  The moderator-invokable dispatchBonus operation creates the bonus
state in phase BonusPending with originalParticipantId equal to the current
active participant and bonusParticipantId equal to the next participant in
order with wraparound, makes the bonus participant the temporary active
participant, and does not advance the global turn cursor (question index and
order unchanged, nothing persisted). -/
theorem dispatchBonus_creates_pending_bonus (st : LiveState)
    (questionId u i np : Nat)
    (hactive : st.session.activeUserId = some u)
    (hidx : st.session.participantOrder.findIdx? (fun p => p = u) = some i)
    (hget : st.session.participantOrder.get?
      ((i + 1) % st.session.participantOrder.length) = some np) :
    ∃ st2 events, dispatchBonus questionId st = some (st2, events) ∧
      st2.session.bonusState = some ⟨u, np, questionId, true⟩ ∧
      st2.session.activeUserId = some np ∧
      st2.session.currentQuestionIndex = st.session.currentQuestionIndex ∧
      st2.session.participantOrder = st.session.participantOrder ∧
      st2.db = st.db := by
  unfold dispatchBonus
  rw [hactive]
  dsimp only
  rw [hidx]
  dsimp only
  rw [hget]
  exact ⟨_, _, rfl, rfl, rfl, rfl, rfl, rfl⟩

/-- Concrete state for the C5 witness: order [1, 2, 3] with user 2 active. -/
def stC5 : LiveState where
  session := ⟨QuizType.multiple_choice, 5,
    [⟨10, 0, 1, QuestionType.multiple_choice, 2, false⟩],
    [⟨10, 0, 1, QuestionType.multiple_choice, 2, false⟩],
    [1, 2, 3], some 2, 4, [], none, none⟩
  db := ⟨[⟨0, none⟩], [⟨5, 0, 1, QuizType.multiple_choice, 3, true⟩],
    [⟨10, 0, 1, QuestionType.multiple_choice, 2, false⟩], [], [], []⟩

/-- Witness for C5: dispatching a bonus for question 10 while user 2 is
active creates BonusPending from user 2 to user 3 without moving the cursor. -/
theorem dispatchBonus_creates_pending_bonus_witness :
    ∃ st2 events, dispatchBonus 10 stC5 = some (st2, events) ∧
      st2.session.bonusState = some ⟨2, 3, 10, true⟩ ∧
      st2.session.activeUserId = some 3 ∧
      st2.session.currentQuestionIndex = stC5.session.currentQuestionIndex ∧
      st2.session.participantOrder = stC5.session.participantOrder ∧
      st2.db = stC5.db :=
  dispatchBonus_creates_pending_bonus stC5 10 2 1 3 rfl (by decide) (by decide)

/-- quiz.gateway.ts handleCheckRoundReadiness (lines 617-623): the quiz's
rounds with a strictly smaller roundNumber, ordered by roundNumber ascending. -/
def previousRounds (rounds : List RoundRec) (quizId roundNumber : Nat) :
    List RoundRec :=
  List.insertionSort (fun a b => a.roundNumber ≤ b.roundNumber)
    (rounds.filter (fun r => r.quizId = quizId ∧ r.roundNumber < roundNumber))

/-- quiz.gateway.ts line 625: the filter keeping the previous rounds that
satisfy (not r.isActive) and round.roundNumber greater than 1. -/
def incompletePreviousRounds (rounds : List RoundRec) (round : RoundRec) :
    List RoundRec :=
  (previousRounds rounds round.quizId round.roundNumber).filter
    (fun r => r.isActive = false ∧ round.roundNumber > 1)

/-- quiz.gateway.ts line 641: previousRoundsCompleted is reported exactly
when incompletePreviousRounds is empty. -/
def previousRoundsCompleted (rounds : List RoundRec) (round : RoundRec) : Bool :=
  decide ((incompletePreviousRounds rounds round).length = 0)

/-- quiz.gateway.ts line 626: canStart = isReady and the prerequisite. -/
def canStart (isReady : Bool) (rounds : List RoundRec) (round : RoundRec) : Bool :=
  isReady && previousRoundsCompleted rounds round

/-- C6 evaluated at the failing input: the readiness filter is inverted.  A
quiz with round 1 already completed (isActive was flipped to false on
completion) blocks round 2 from starting — the prerequisite is reported unmet
and canStart is false in spite of isReady — while a quiz whose round 1 is
STILL flagged active reports the prerequisite as met.  Both directions
contradict the claim that the prerequisite holds exactly when no
strictly-earlier round is still active. -/
theorem checkRoundReadiness_prerequisite_inverted :
    previousRoundsCompleted
      [⟨1, 0, 1, QuizType.multiple_choice, 3, false⟩,
       ⟨2, 0, 2, QuizType.yes_no, 3, false⟩]
      ⟨2, 0, 2, QuizType.yes_no, 3, false⟩ = false ∧
    canStart true
      [⟨1, 0, 1, QuizType.multiple_choice, 3, false⟩,
       ⟨2, 0, 2, QuizType.yes_no, 3, false⟩]
      ⟨2, 0, 2, QuizType.yes_no, 3, false⟩ = false ∧
    (∀ r ∈ [(⟨1, 0, 1, QuizType.multiple_choice, 3, false⟩ : RoundRec),
       ⟨2, 0, 2, QuizType.yes_no, 3, false⟩], r.roundNumber < 2 →
       r.isActive = false) ∧
    previousRoundsCompleted
      [⟨1, 0, 1, QuizType.multiple_choice, 3, true⟩,
       ⟨2, 0, 2, QuizType.yes_no, 3, false⟩]
      ⟨2, 0, 2, QuizType.yes_no, 3, false⟩ = true := by decide

/-- JavaScript truthy default (x or d) on an optional numeric parameter:
undefined and 0 both fall back to the default. -/
def orDefault (o : Option Nat) (d : Nat) : Nat :=
  match o with
  | some n => if n = 0 then d else n
  | none => d

/-- questions.service.ts mapRoundTypeToQuestionType (lines 403-415):
simultaneous and unknown types default to multiple_choice. -/
def mapRoundTypeToQuestionType (roundType : QuizType) : QuestionType :=
  match roundType with
  | QuizType.yes_no => QuestionType.yes_no
  | QuizType.multiple_choice => QuestionType.multiple_choice
  | QuizType.simultaneous => QuestionType.multiple_choice

/-- questions.service.ts getQuestionsForRound (lines 157-189).  Simultaneous:
all unanswered questions of the quiz regardless of type, ordered by
questionNumber, truncated to (participantCount or 1) times
(questionsPerParticipant or 3).  Sequential: unanswered questions of the
mapped question type ordered by questionNumber, with take applied only when
questionsPerParticipant is truthy (the JavaScript conditional spread).  The
prisma orderBy is modelled as a stable sort; questionNumber is unique per
quiz.  There is no error path: the function returns whatever is available. -/
def getQuestionsForRound (questions : List QuestionRec) (quizId : Nat)
    (roundType : QuizType)
    (participantCount questionsPerParticipant : Option Nat) :
    List QuestionRec :=
  if roundType = QuizType.simultaneous then
    let totalQuestionsNeeded :=
      orDefault participantCount 1 * orDefault questionsPerParticipant 3
    (List.insertionSort (fun a b => a.questionNumber ≤ b.questionNumber)
      (questions.filter (fun q => q.quizId = quizId ∧
        q.isAnswered = false))).take totalQuestionsNeeded
  else
    let questionType := mapRoundTypeToQuestionType roundType
    let l := List.insertionSort (fun a b => a.questionNumber ≤ b.questionNumber)
      (questions.filter (fun q => q.quizId = quizId ∧
        q.questionType = questionType ∧ q.isAnswered = false))
    match questionsPerParticipant with
    | some n => if n = 0 then l else l.take n
    | none => l

/-- C7 counterexample: a sequential multiple-choice round for 2 participants
with questionsPerParticipant 3 over a quiz holding 4 unanswered
multiple-choice questions returns only 3 questions — not the claimed
participantCount times questionsPerParticipant (6) plus buffer — and no
InsufficientQuestions error is raised although fewer than 6 are available
(the function has no error path at all; the participantCount argument is
ignored in the sequential branch). -/
theorem getQuestionsForRound_ignores_participant_count :
    (getQuestionsForRound
      [⟨1, 0, 1, QuestionType.multiple_choice, 0, false⟩,
       ⟨2, 0, 2, QuestionType.multiple_choice, 0, false⟩,
       ⟨3, 0, 3, QuestionType.multiple_choice, 0, false⟩,
       ⟨4, 0, 4, QuestionType.multiple_choice, 0, false⟩]
      0 QuizType.multiple_choice (some 2) (some 3)).length = 3 ∧
    ¬ 2 * 3 ≤ (getQuestionsForRound
      [⟨1, 0, 1, QuestionType.multiple_choice, 0, false⟩,
       ⟨2, 0, 2, QuestionType.multiple_choice, 0, false⟩,
       ⟨3, 0, 3, QuestionType.multiple_choice, 0, false⟩,
       ⟨4, 0, 4, QuestionType.multiple_choice, 0, false⟩]
      0 QuizType.multiple_choice (some 2) (some 3)).length := by decide

/-- C7 (amended).  For sequential rounds the question-supply operation
returns the unanswered questions of the round's required type, ordered by
stable question number, truncated to questionsPerParticipant when a nonzero
count is supplied; the participant count and any buffer are ignored and no
InsufficientQuestions error is raised — when fewer questions are available
the result is simply shorter (shortage reporting happens only in the
separate readiness check). -/
theorem getQuestionsForRound_sequential_spec (questions : List QuestionRec)
    (quizId n : Nat) (pc : Option Nat) (roundType : QuizType)
    (hseq : roundType ≠ QuizType.simultaneous) (hn : n ≠ 0) :
    (getQuestionsForRound questions quizId roundType pc (some n)).length =
      min n (questions.filter (fun q => q.quizId = quizId ∧
        q.questionType = mapRoundTypeToQuestionType roundType ∧
        q.isAnswered = false)).length ∧
    (∀ q ∈ getQuestionsForRound questions quizId roundType pc (some n),
      q.quizId = quizId ∧
      q.questionType = mapRoundTypeToQuestionType roundType ∧
      q.isAnswered = false) ∧
    List.Sorted (fun a b => a.questionNumber ≤ b.questionNumber)
      (getQuestionsForRound questions quizId roundType pc (some n)) := by
  haveI htot : IsTotal QuestionRec
      (fun a b => a.questionNumber ≤ b.questionNumber) :=
    ⟨fun a b => Nat.le_total _ _⟩
  haveI htrans : IsTrans QuestionRec
      (fun a b => a.questionNumber ≤ b.questionNumber) :=
    ⟨fun _ _ _ hab hbc => Nat.le_trans hab hbc⟩
  have heq : getQuestionsForRound questions quizId roundType pc (some n) =
      (List.insertionSort (fun a b => a.questionNumber ≤ b.questionNumber)
        (questions.filter (fun q => q.quizId = quizId ∧
          q.questionType = mapRoundTypeToQuestionType roundType ∧
          q.isAnswered = false))).take n := by
    unfold getQuestionsForRound
    rw [if_neg hseq]
    dsimp only
    rw [if_neg hn]
  have hperm := List.perm_insertionSort
    (fun a b => a.questionNumber ≤ b.questionNumber)
    (questions.filter (fun q => q.quizId = quizId ∧
      q.questionType = mapRoundTypeToQuestionType roundType ∧
      q.isAnswered = false))
  refine ⟨?_, ?_, ?_⟩
  · rw [heq, List.length_take, hperm.length_eq]
  · intro q hq
    rw [heq] at hq
    have hmem := hperm.mem_iff.mp (List.take_subset _ _ hq)
    have := List.mem_filter.mp hmem
    simpa using this.2
  · rw [heq]
    exact (List.sorted_insertionSort _ _).sublist (List.take_sublist _ _)

/-- Witness for the amended C7: two of two available yes-no questions are
returned in question-number order for a requested count of 5, with no error. -/
theorem getQuestionsForRound_sequential_spec_witness :
    (getQuestionsForRound
      [⟨7, 0, 2, QuestionType.yes_no, 0, false⟩,
       ⟨8, 0, 1, QuestionType.yes_no, 0, false⟩,
       ⟨9, 0, 3, QuestionType.multiple_choice, 0, false⟩]
      0 QuizType.yes_no (some 4) (some 5)).length =
      min 5 ([⟨7, 0, 2, QuestionType.yes_no, 0, false⟩,
       ⟨8, 0, 1, QuestionType.yes_no, 0, false⟩,
       ⟨9, 0, 3, QuestionType.multiple_choice, 0, false⟩].filter
        (fun q : QuestionRec => q.quizId = 0 ∧
          q.questionType = mapRoundTypeToQuestionType QuizType.yes_no ∧
          q.isAnswered = false)).length ∧
    (∀ q ∈ getQuestionsForRound
      [⟨7, 0, 2, QuestionType.yes_no, 0, false⟩,
       ⟨8, 0, 1, QuestionType.yes_no, 0, false⟩,
       ⟨9, 0, 3, QuestionType.multiple_choice, 0, false⟩]
      0 QuizType.yes_no (some 4) (some 5),
      q.quizId = 0 ∧
      q.questionType = mapRoundTypeToQuestionType QuizType.yes_no ∧
      q.isAnswered = false) ∧
    List.Sorted (fun a b : QuestionRec => a.questionNumber ≤ b.questionNumber)
      (getQuestionsForRound
        [⟨7, 0, 2, QuestionType.yes_no, 0, false⟩,
         ⟨8, 0, 1, QuestionType.yes_no, 0, false⟩,
         ⟨9, 0, 3, QuestionType.multiple_choice, 0, false⟩]
        0 QuizType.yes_no (some 4) (some 5)) :=
  getQuestionsForRound_sequential_spec
    [⟨7, 0, 2, QuestionType.yes_no, 0, false⟩,
     ⟨8, 0, 1, QuestionType.yes_no, 0, false⟩,
     ⟨9, 0, 3, QuestionType.multiple_choice, 0, false⟩]
    0 5 (some 4) QuizType.yes_no (by decide) (by decide)

/-- Distinct slice windows of a duplicate-free list are disjoint. -/
theorem chunk_disjoint_of_lt (questions : List QuestionRec) (qpp i j : Nat)
    (hnodup : questions.Nodup) (hij : i < j) :
    ((questions.drop (i * qpp)).take qpp).Disjoint
      ((questions.drop (j * qpp)).take qpp) := by
  have h1 : (questions.drop (i * qpp)).take qpp ⊆
      questions.take (i * qpp + qpp) := by
    rw [List.take_add]
    exact List.subset_append_right _ _
  have h2 : (questions.drop (j * qpp)).take qpp ⊆ questions.drop (j * qpp) :=
    List.take_subset _ _
  have hle : i * qpp + qpp ≤ j * qpp := by
    have hmul : (i + 1) * qpp ≤ j * qpp :=
      Nat.mul_le_mul_right _ (Nat.succ_le_of_lt hij)
    calc i * qpp + qpp = (i + 1) * qpp := by ring
    _ ≤ j * qpp := hmul
  exact List.disjoint_of_subset_left h1
    (List.disjoint_of_subset_right h2 (List.disjoint_take_drop hnodup hle))

/-- quiz.gateway.ts handleStartRound, simultaneous branch (lines 514-527):
participant number i of the order receives
questions.slice(i * questionsPerParticipant, (i + 1) * questionsPerParticipant). -/
def participantQuestions (questions : List QuestionRec)
    (participantOrder : List Nat) (questionsPerParticipant : Nat) :
    List (Nat × List QuestionRec) :=
  participantOrder.enum.map (fun p =>
    (p.2, (questions.drop (p.1 * questionsPerParticipant)).take
      questionsPerParticipant))

/-- C9.  In simultaneous mode, with a pool of at least
(number of participants) times questionsPerParticipant distinct questions,
round start assigns participant i the contiguous chunk of the pool from index
i times questionsPerParticipant up to (i+1) times questionsPerParticipant, of
exactly questionsPerParticipant questions, and the chunks of two different
participants are pairwise disjoint — no question appears in two chunks. -/
theorem participantQuestions_disjoint_chunks (questions : List QuestionRec)
    (order : List Nat) (qpp : Nat)
    (hnodup : questions.Nodup)
    (hlen : order.length * qpp ≤ questions.length) :
    (participantQuestions questions order qpp).length = order.length ∧
    (∀ i u chunk,
      (participantQuestions questions order qpp).get? i = some (u, chunk) →
      order.get? i = some u ∧
      chunk = (questions.drop (i * qpp)).take qpp ∧
      chunk.length = qpp) ∧
    (∀ i j ui uj ci cj, i ≠ j →
      (participantQuestions questions order qpp).get? i = some (ui, ci) →
      (participantQuestions questions order qpp).get? j = some (uj, cj) →
      ci.Disjoint cj) := by
  have hget : ∀ i, (participantQuestions questions order qpp).get? i =
      (order.get? i).map
        (fun u => (u, (questions.drop (i * qpp)).take qpp)) := by
    intro i
    unfold participantQuestions
    rw [List.get?_map, List.enum_get?]
    cases order.get? i <;> rfl
  refine ⟨?_, ?_, ?_⟩
  · unfold participantQuestions
    rw [List.length_map, List.enum_length]
  · intro i u chunk h
    rw [hget i] at h
    cases horder : order.get? i with
    | none => rw [horder] at h; cases h
    | some v =>
        rw [horder] at h
        simp only [Option.map_some', Option.some.injEq, Prod.mk.injEq] at h
        obtain ⟨hu, hc⟩ := h
        obtain ⟨hi, -⟩ := List.get?_eq_some.mp horder
        have hsucc : i * qpp + qpp ≤ questions.length := by
          have hmul : (i + 1) * qpp ≤ order.length * qpp :=
            Nat.mul_le_mul_right _ (Nat.succ_le_of_lt hi)
          calc i * qpp + qpp = (i + 1) * qpp := by ring
          _ ≤ order.length * qpp := hmul
          _ ≤ questions.length := hlen
        refine ⟨?_, hc.symm, ?_⟩
        · rw [hu]
        · rw [← hc, List.length_take, List.length_drop]
          exact min_eq_left
            (Nat.le_sub_of_add_le (by rw [Nat.add_comm]; exact hsucc))
  · intro i j ui uj ci cj hij hi hj
    rw [hget i] at hi
    rw [hget j] at hj
    cases hoi : order.get? i with
    | none => rw [hoi] at hi; cases hi
    | some vi =>
        cases hoj : order.get? j with
        | none => rw [hoj] at hj; cases hj
        | some vj =>
            rw [hoi] at hi
            rw [hoj] at hj
            simp only [Option.map_some', Option.some.injEq,
              Prod.mk.injEq] at hi hj
            obtain ⟨-, hci⟩ := hi
            obtain ⟨-, hcj⟩ := hj
            subst hci
            subst hcj
            rcases Nat.lt_or_ge i j with hlt | hge
            · exact chunk_disjoint_of_lt questions qpp i j hnodup hlt
            · exact (chunk_disjoint_of_lt questions qpp j i hnodup
                (lt_of_le_of_ne hge (Ne.symm hij))).symm

/-- The 9-question pool for the C9 witness (3 participants, 3 questions each). -/
def qsC9 : List QuestionRec :=
  [⟨1, 0, 1, QuestionType.multiple_choice, 0, false⟩,
   ⟨2, 0, 2, QuestionType.multiple_choice, 0, false⟩,
   ⟨3, 0, 3, QuestionType.yes_no, 0, false⟩,
   ⟨4, 0, 4, QuestionType.multiple_choice, 0, false⟩,
   ⟨5, 0, 5, QuestionType.yes_no, 0, false⟩,
   ⟨6, 0, 6, QuestionType.multiple_choice, 0, false⟩,
   ⟨7, 0, 7, QuestionType.yes_no, 0, false⟩,
   ⟨8, 0, 8, QuestionType.multiple_choice, 0, false⟩,
   ⟨9, 0, 9, QuestionType.yes_no, 0, false⟩]

/-- Witness for C9: with 3 participants and 3 questions each over the
9-question pool, the first two participants' chunks share no question. -/
theorem participantQuestions_disjoint_chunks_witness :
    (participantQuestions qsC9 [1, 2, 3] 3).length = 3 ∧
    List.Disjoint (qsC9.take 3) ((qsC9.drop 3).take 3) := by
  have h := participantQuestions_disjoint_chunks qsC9 [1, 2, 3] 3
    (by decide) (by decide)
  refine ⟨h.1, ?_⟩
  have hd := h.2.2 0 1 1 2 (qsC9.take 3) ((qsC9.drop 3).take 3)
    (by decide) (by decide) (by decide)
  exact hd
